import Mathlib

/-!
Shallow embedding of `src/main.py`, a Discord webhook relay bot, together
with proofs settling the frozen specification claims.

The embedding follows the Python source function by function:
* `parse_account_data` models the two `re.search` calls with patterns
  `Username:\s*(\S+)` and `Session Token:\s*(\S+)` under `re.IGNORECASE`;
* `format_playtime` / `format_balance` model the numeric display formatters,
  with Python values modelled by `PyVal`, Python floats idealised as exact
  rationals plus `inf` / `-inf` / `nan`, and Python exceptions modelled by
  `Except PyErr`;
* `fetch_donutsmp_stats` models the stats HTTP client: the network outcome
  (connection error, or a status code plus a JSON-decoded body) is an input,
  and the function's `except Exception` catch-all wraps the body;
* `loadConfig` models the module-level environment loading and the four
  startup `raise ValueError` checks;
* `on_message` models the webhook message handler as a function from the
  inbound message (plus the API outcome oracle) to the list of performed
  actions;
* `health_check` / `webserver_handle` model the aiohttp liveness routes.
-/

/-- Python regex `\s` on the relevant ASCII range (space, tab, newline,
carriage return, vertical tab, form feed); also used for `str.strip` in
`float()` / `int()` argument normalisation. -/
def pyIsSpace (c : Char) : Bool :=
  c = ' ' || c = '\t' || c = '\n' || c = '\r' || c = '\x0b' || c = '\x0c'

/-- Case-insensitive character comparison, the character-level semantics of
`re.IGNORECASE` on ASCII text. -/
def lowerEq (a b : Char) : Bool :=
  a.toLower == b.toLower

/-- `matchesAt pat s` holds when `pat` matches case-insensitively at the very
start of `s` (a literal-pattern regex anchored at the current position). -/
def matchesAt : List Char → List Char → Bool
  | [], _ => true
  | _ :: _, [] => false
  | p :: ps, c :: cs => lowerEq p c && matchesAt ps cs

/-- After a label has matched, `\s*(\S+)` takes the first whitespace-delimited
token: skip whitespace greedily, then capture a maximal nonempty run of
non-whitespace characters; if no such character follows, the match attempt at
this position fails (`none`). -/
def captureAfter (s : List Char) : Option (List Char) :=
  match (s.dropWhile pyIsSpace).takeWhile (fun c => !pyIsSpace c) with
  | [] => none
  | c :: cs => some (c :: cs)

/-- `re.search` for the pattern `label\s*(\S+)` with `re.IGNORECASE`: try each
start position left to right; at the first position where the label matches
and a token follows, return the captured token. -/
def searchLabeled (pat : List Char) : List Char → Option (List Char)
  | [] => none
  | c :: rest =>
    match (if matchesAt pat (c :: rest) then captureAfter ((c :: rest).drop pat.length) else none) with
    | some tok => some tok
    | none => searchLabeled pat rest

/-- The literal label of `re.search(r'Username:\s*(\S+)', ..., re.IGNORECASE)`,
pre-lowercased (case-insensitivity lives in `lowerEq`). -/
def userPat : List Char := ['u', 's', 'e', 'r', 'n', 'a', 'm', 'e', ':']

/-- The literal label of `re.search(r'Session Token:\s*(\S+)', ..., re.IGNORECASE)`,
pre-lowercased. -/
def sessPat : List Char := ['s', 'e', 's', 's', 'i', 'o', 'n', ' ', 't', 'o', 'k', 'e', 'n', ':']

/-- The spec's third labeled field pattern, `UUID: Y` (pre-lowercased label);
the source has no regex for it, it appears only in the spec's inbound-format
description. -/
def uuidPat : List Char := ['u', 'u', 'i', 'd', ':']

/-- Pack a character list back into a `String` (the `.group(1)` result). -/
def chListStr (l : List Char) : String := ⟨l⟩

/-- `parse_account_data` (src/main.py lines 57-64): two independent
case-insensitive searches; each component is the captured token of the first
match, or `None` when the pattern does not occur. -/
def parse_account_data (content : String) : Option String × Option String :=
  (Option.map chListStr (searchLabeled userPat content.data),
   Option.map chListStr (searchLabeled sessPat content.data))

/-- Python exceptions relevant to the embedded code paths. -/
inductive PyErr where
  | valueError
  | typeError
  | overflowError
  | attributeError
  | jsonDecodeError
  deriving DecidableEq, Repr

/-- Python float values, idealised: finite values are exact rationals (the
claims never exercise binary64 rounding), plus the special values. -/
inductive PFloat where
  | finite (q : ℚ)
  | inf
  | neginf
  | nan
  deriving DecidableEq

/-- Python values as they occur in this program: `None`, booleans, integers,
floats, strings, and JSON-style lists and dicts (association lists). -/
inductive PyVal where
  | null
  | bool (b : Bool)
  | int (n : ℤ)
  | float (f : PFloat)
  | str (s : String)
  | arr (xs : List PyVal)
  | obj (kvs : List (String × PyVal))

instance exceptDecEq {ε α : Type} [DecidableEq ε] [DecidableEq α] :
    DecidableEq (Except ε α) := fun x y =>
  match x, y with
  | .ok a, .ok b => decidable_of_iff (a = b) (by simp)
  | .ok _, .error _ => isFalse (fun h => Except.noConfusion h)
  | .error _, .ok _ => isFalse (fun h => Except.noConfusion h)
  | .error e, .error f => decidable_of_iff (e = f) (by simp)

/-- Python truthiness (`bool(x)`): `None`, `False`, zero, empty string and
empty containers are falsy; `nan` and the infinities are truthy. -/
def pyTruthy : PyVal → Bool
  | .null => false
  | .bool b => b
  | .int n => n != 0
  | .float (.finite q) => q != 0
  | .float _ => true
  | .str s => s != ""
  | .arr xs => !xs.isEmpty
  | .obj kvs => !kvs.isEmpty

/-- Numeric value of a digit string (most significant first). -/
def digitsValNat (ds : List Char) : Nat :=
  ds.foldl (fun acc c => acc * 10 + (c.toNat - 48)) 0

/-- CPython `float(str)` on the common ASCII forms: optional surrounding
whitespace, optional sign, then `inf`/`infinity`/`nan` (case-insensitive) or a
decimal mantissa with optional fraction and optional exponent. Strings
outside this grammar yield `none` (Python raises `ValueError`). -/
def parsePyFloat (s : String) : Option PFloat :=
  let t := (((s.data.dropWhile pyIsSpace).reverse.dropWhile pyIsSpace).reverse).map Char.toLower
  let signed : Bool × List Char :=
    match t with
    | '-' :: r => (true, r)
    | '+' :: r => (false, r)
    | r => (false, r)
  let neg := signed.1
  let u := signed.2
  if u = ['i', 'n', 'f'] ∨ u = ['i', 'n', 'f', 'i', 'n', 'i', 't', 'y'] then
    some (if neg then .neginf else .inf)
  else if u = ['n', 'a', 'n'] then
    some .nan
  else
    let intPart := u.takeWhile Char.isDigit
    let rest1 := u.dropWhile Char.isDigit
    let fracSplit : List Char × List Char :=
      match rest1 with
      | '.' :: r => (r.takeWhile Char.isDigit, r.dropWhile Char.isDigit)
      | r => ([], r)
    let fracPart := fracSplit.1
    let rest2 := fracSplit.2
    if intPart = [] ∧ fracPart = [] then none
    else
      let mant : ℚ :=
        (digitsValNat intPart : ℚ) + (digitsValNat fracPart : ℚ) / (10 : ℚ) ^ fracPart.length
      let signedMant := if neg then -mant else mant
      match rest2 with
      | [] => some (.finite signedMant)
      | 'e' :: r =>
        let esigned : Bool × List Char :=
          match r with
          | '-' :: r2 => (true, r2)
          | '+' :: r2 => (false, r2)
          | r2 => (false, r2)
        if esigned.2 ≠ [] ∧ esigned.2.all Char.isDigit then
          let k := digitsValNat esigned.2
          some (.finite (if esigned.1 then signedMant / (10 : ℚ) ^ k else signedMant * (10 : ℚ) ^ k))
        else none
      | _ => none

/-- Python `float(x)`: `None` and containers raise `TypeError`, booleans and
integers convert exactly, strings go through `float_from_string` parsing
(failure raises `ValueError`). -/
def pyFloat : PyVal → Except PyErr PFloat
  | .null => .error .typeError
  | .bool b => .ok (.finite (if b then 1 else 0))
  | .int n => .ok (.finite (n : ℚ))
  | .float f => .ok f
  | .str s =>
    match parsePyFloat s with
    | some f => .ok f
    | none => .error .valueError
  | .arr _ => .error .typeError
  | .obj _ => .error .typeError

/-- Truncation toward zero of an exact rational, the value of `int(f)` for a
finite float. -/
def pyTruncRat (q : ℚ) : ℤ := q.num.tdiv (q.den : ℤ)

/-- Python `int(f)` on a float: truncates finite values toward zero, raises
`OverflowError` on the infinities and `ValueError` on `nan`. -/
def pyIntOfPFloat : PFloat → Except PyErr ℤ
  | .finite q => .ok (pyTruncRat q)
  | .inf => .error .overflowError
  | .neginf => .error .overflowError
  | .nan => .error .valueError

/-- Insert a comma after every third character of a reversed digit list
(helper for Python's thousands-separator format `f"..:,.."`). -/
def group3 : List Char → List Char
  | a :: b :: c :: d :: rest => a :: b :: c :: ',' :: group3 (d :: rest)
  | l => l

/-- Python `f"{n:,}"` for a nonnegative integer: decimal digits with a comma
between each group of three. -/
def commaGroup (n : Nat) : String :=
  chListStr ((group3 (Nat.toDigits 10 n).reverse).reverse)

/-- The `try ... except (ValueError, TypeError)` wrapper shared by both
formatters: those two exception classes are swallowed into the sentinel
`"Unknown"` (after logging); any other exception escapes. -/
def catchNumErr : Except PyErr String → Except PyErr String
  | .error .valueError => .ok "Unknown"
  | .error .typeError => .ok "Unknown"
  | r => r

/-- Body of `format_playtime` before its `except` clause (src/main.py
lines 66-84): `None` short-circuits to `"Unknown"`; otherwise
`int(float(seconds))`, and positive totals render as `f"{hours:,}h {minutes}m"`
with floor `//` and `%`, non-positive as `"0h 0m"`. -/
def format_playtime_body (v : PyVal) : Except PyErr String :=
  match v with
  | .null => .ok "Unknown"
  | v =>
    match pyFloat v with
    | .error e => .error e
    | .ok f =>
      match pyIntOfPFloat f with
      | .error e => .error e
      | .ok n =>
        if 0 < n then
          let m := n.toNat
          .ok (commaGroup (m / 3600) ++ "h " ++ commaGroup ((m % 3600) / 60) ++ "m")
        else .ok "0h 0m"

/-- `format_playtime` (src/main.py lines 66-84). -/
def format_playtime (v : PyVal) : Except PyErr String :=
  catchNumErr (format_playtime_body v)

/-- Body of `format_balance` before its `except` clause (src/main.py
lines 86-102): `None` short-circuits to `"Unknown"`; otherwise
`int(float(balance_str))`, and positive balances render as `f"${balance_int:,}"`,
non-positive as `"$0"`. -/
def format_balance_body (v : PyVal) : Except PyErr String :=
  match v with
  | .null => .ok "Unknown"
  | v =>
    match pyFloat v with
    | .error e => .error e
    | .ok f =>
      match pyIntOfPFloat f with
      | .error e => .error e
      | .ok n =>
        if 0 < n then .ok ("$" ++ commaGroup n.toNat)
        else .ok "$0"

/-- `format_balance` (src/main.py lines 86-102). -/
def format_balance (v : PyVal) : Except PyErr String :=
  catchNumErr (format_balance_body v)

/-- Outcome of the single outbound HTTP GET, as seen by
`fetch_donutsmp_stats`: either the request itself raised (connection error),
or a response arrived with a status code and a body whose JSON decoding
either produced a value or raised. -/
inductive ApiResult where
  | netError
  | resp (status : Nat) (body : Except PyErr PyVal)

/-- Python `d.get(key, default)`: only dicts have `.get` (anything else
raises `AttributeError`); a present key returns its value (even `None`),
an absent key returns the default. -/
def pyGetD (d : PyVal) (k : String) (dflt : PyVal) : Except PyErr PyVal :=
  match d with
  | .obj kvs =>
    match kvs.lookup k with
    | some v => .ok v
    | none => .ok dflt
  | _ => .error .attributeError

/-- The `stats.get(k1) or stats.get(k2) or ... or 0` fallback chain: Python
`or` short-circuits on the first truthy result; when every lookup is falsy
the chain ends in the literal `0`. -/
def orKeys (stats : PyVal) : List String → Except PyErr PyVal
  | [] => .ok (.int 0)
  | k :: ks =>
    match pyGetD stats k .null with
    | .error e => .error e
    | .ok v => if pyTruthy v then .ok v else orKeys stats ks

/-- Body of the `try` block of `fetch_donutsmp_stats` (src/main.py
lines 110-154) for a response that arrived: the status dispatch, the
empty-body check, the `result`-or-flat fallback, the truthiness check on the
located stats object, the key-fallback chains and the two formatter calls.
The `401`, `500` and catch-all status branches each return the sentinel
triple, exactly as the three separate `return` statements do. -/
def fetch_steps (status : Nat) (body : Except PyErr PyVal) : Except PyErr (String × String × Bool) :=
  if status = 200 then
    match body with
    | .error e => .error e
    | .ok data =>
      if pyTruthy data = false then .ok ("Unknown", "Unknown", false)
      else
        match pyGetD data "result" data with
        | .error e => .error e
        | .ok stats =>
          if pyTruthy stats then
            match orKeys stats ["playtime", "Playtime", "timePlayed"] with
            | .error e => .error e
            | .ok praw =>
              match format_playtime praw with
              | .error e => .error e
              | .ok playtime =>
                match orKeys stats ["money", "Money", "balance", "Balance"] with
                | .error e => .error e
                | .ok braw =>
                  match format_balance braw with
                  | .error e => .error e
                  | .ok balance => .ok (playtime, balance, true)
          else .ok ("Unknown", "Unknown", false)
  else if status = 401 then .ok ("Unknown", "Unknown", false)
  else if status = 500 then .ok ("Unknown", "Unknown", false)
  else .ok ("Unknown", "Unknown", false)

/-- `fetch_donutsmp_stats` (src/main.py lines 104-158): the whole request is
wrapped in `except Exception`, which converts any raised exception (network
error, JSON decode error, `.get` on a non-dict, formatter overflow, ...) into
the sentinel triple `("Unknown", "Unknown", False)`. -/
def fetch_donutsmp_stats : ApiResult → String × String × Bool
  | .netError => ("Unknown", "Unknown", false)
  | .resp status body =>
    match fetch_steps status body with
    | .ok r => r
    | .error _ => ("Unknown", "Unknown", false)

/-- The five environment variables read at startup (src/main.py lines 14-18);
`none` models an absent variable. -/
structure Env where
  DISCORD_BOT_TOKEN : Option String
  INPUT_CHANNEL_ID : Option String
  OUTPUT_CHANNEL_ID : Option String
  PORT : Option String
  DONUTSMP_API_KEY : Option String
  deriving DecidableEq

/-- The module-level configuration produced when startup succeeds. -/
structure Config where
  TOKEN : String
  INPUT_CHANNEL_ID : ℤ
  OUTPUT_CHANNEL_ID : ℤ
  PORT : ℤ
  API_KEY : String
  deriving DecidableEq

/-- Python `int(str)`: optional surrounding whitespace, optional sign, then a
nonempty run of decimal digits; anything else raises `ValueError`. -/
def pyIntOfString (s : String) : Except PyErr ℤ :=
  let t := (((s.data.dropWhile pyIsSpace).reverse.dropWhile pyIsSpace).reverse)
  let signed : Bool × List Char :=
    match t with
    | '-' :: r => (true, r)
    | '+' :: r => (false, r)
    | r => (false, r)
  if signed.2 ≠ [] ∧ signed.2.all Char.isDigit then
    .ok (if signed.1 then -(digitsValNat signed.2 : ℤ) else (digitsValNat signed.2 : ℤ))
  else .error .valueError

/-- `int(os.environ.get(NAME, default))`: an absent variable takes the integer
default without any parsing; a present one goes through `int(str)`. -/
def envInt (v : Option String) (dflt : ℤ) : Except PyErr ℤ :=
  match v with
  | none => .ok dflt
  | some s => pyIntOfString s

/-- Python truthiness of `os.environ.get` results: absent (`None`) and the
empty string are falsy. -/
def optStrTruthy : Option String → Bool
  | none => false
  | some s => s != ""

/-- Module-level startup (src/main.py lines 14-27): the three `int(...)`
conversions run first, in source order (a parse failure aborts with the
`int()` `ValueError`); then the four `if not ...: raise ValueError(...)`
checks run in source order. `PORT` has default `8080` and, unlike the other
four values, is never checked. -/
def loadConfig (env : Env) : Except String Config :=
  match envInt env.INPUT_CHANNEL_ID 0 with
  | .error _ => .error "invalid literal for int() with base 10: INPUT_CHANNEL_ID"
  | .ok input =>
    match envInt env.OUTPUT_CHANNEL_ID 0 with
    | .error _ => .error "invalid literal for int() with base 10: OUTPUT_CHANNEL_ID"
    | .ok output =>
      match envInt env.PORT 8080 with
      | .error _ => .error "invalid literal for int() with base 10: PORT"
      | .ok port =>
        if optStrTruthy env.DISCORD_BOT_TOKEN = false then
          .error "DISCORD_BOT_TOKEN environment variable not set"
        else if input = 0 then
          .error "INPUT_CHANNEL_ID environment variable not set"
        else if output = 0 then
          .error "OUTPUT_CHANNEL_ID environment variable not set"
        else if optStrTruthy env.DONUTSMP_API_KEY = false then
          .error "DONUTSMP_API_KEY environment variable not set"
        else
          .ok ⟨(env.DISCORD_BOT_TOKEN).getD "", input, output, port,
               (env.DONUTSMP_API_KEY).getD ""⟩

/-- Does a startup attempt abort (an uncaught `ValueError` at module load)? -/
def isStartupError : Except String Config → Bool
  | .error _ => true
  | .ok _ => false

/-- An inbound chat message as the handler sees it. -/
structure Message where
  authorId : Nat
  channelId : Nat
  webhookId : Option Nat
  content : String
  deriving DecidableEq

/-- An embed payload: title, description, colour, and the inline fields. -/
structure EmbedData where
  title : String
  description : String
  color : Nat
  fields : List (String × String)
  deriving DecidableEq

/-- The data an `AccountView` closes over; its two buttons (Copy Session,
Copy IGN) reveal `session_token` and `username` ephemerally. -/
structure ViewData where
  username : String
  session_token : String
  playtime : String
  balance : String
  deriving DecidableEq

/-- Externally visible actions the handler can perform, in order. -/
inductive BotAction where
  | fetchStats (username : String)
  | sendEmbed (e : EmbedData)
  | sendEmbedWithView (e : EmbedData) (v : ViewData)
  | processCommands
  deriving DecidableEq

/-- The short invalid-account embed (src/main.py lines 206-210). -/
def invalidEmbed (username : String) : EmbedData :=
  ⟨"Account Found", "**" ++ username ++ "** is not a valid DonutSMP Account", 0x333333, []⟩

/-- The successful account embed with playtime and balance fields
(src/main.py lines 215-221). -/
def accountEmbed (username playtime balance : String) : EmbedData :=
  ⟨"Account Found", "**" ++ username ++ "**", 0x5865F2,
   [("Playtime", playtime), ("Balance", balance)]⟩

/-- Python truthiness of `message.webhook_id` (an optional integer id). -/
def webhookTruthy : Option Nat → Bool
  | none => false
  | some n => n != 0

/-- `on_message` (src/main.py lines 181-227) as a function to the list of
performed actions. Inputs beyond the message itself: the bot's own user id,
the two configured channel ids, whether `bot.get_channel(OUTPUT_CHANNEL_ID)`
finds the output channel, and the API outcome for the parsed username.
Control flow mirrors the source: own messages return immediately; webhook
messages in the input channel are parsed, and a falsy username or session
returns early (skipping `process_commands`); the stats fetch happens before
the output-channel check; an invalid lookup sends the buttonless invalid
embed and returns; a valid one sends the embed with the `AccountView` and
falls through to `process_commands`; every other message goes straight to
`process_commands`. -/
def on_message (botUserId inCh outCh : Nat) (outExists : Bool) (api : ApiResult)
    (m : Message) : List BotAction :=
  if m.authorId = botUserId then []
  else if m.channelId = inCh ∧ webhookTruthy m.webhookId then
    match parse_account_data m.content with
    | (some u, some s) =>
      if u = "" ∨ s = "" then []
      else
        let r := fetch_donutsmp_stats api
        BotAction.fetchStats u ::
          (if outExists = false then []
           else if r.2.2 = false then [BotAction.sendEmbed (invalidEmbed u)]
           else [BotAction.sendEmbedWithView (accountEmbed u r.1 r.2.1) ⟨u, s, r.1, r.2.1⟩,
                 BotAction.processCommands])
    | _ => []
  else [BotAction.processCommands]

/-- `health_check` (src/main.py lines 266-267): a constant response;
`aiohttp.web.Response(text=...)` has status 200. -/
def health_check : Nat × String := (200, "Bot is operational")

/-- The route table of `start_webserver` (src/main.py lines 269-272): `GET /`
and `GET /health` are both wired to `health_check`; the webserver shares no
state with the Discord client, modelled by a `connected` flag the handler
ignores. -/
def webserver_handle (connected : Bool) (path : String) : Option (Nat × String) :=
  if path = "/" ∨ path = "/health" then some health_check else none

/-- One labeled line of a webhook message body: a (cased) label followed by a
single space and the field value. -/
def lineOf (label : List Char) (value : String) : String :=
  chListStr label ++ " " ++ value

/-- A three-line message body, lines separated by newlines. -/
def mkContent (l1 l2 l3 : String) : String :=
  l1 ++ "\n" ++ l2 ++ "\n" ++ l3

/-- The enrichment-failure cases of `fetch_donutsmp_stats`, as code paths:
a connection exception, a non-200 status, a JSON decode failure, a falsy
decoded body, a `.get` failure on a non-dict body, or a falsy located stats
object. -/
def enrichmentFailure (r : ApiResult) : Prop :=
  r = .netError ∨
  (∃ st b, r = .resp st b ∧ st ≠ 200) ∨
  (∃ e, r = .resp 200 (.error e)) ∨
  (∃ data, r = .resp 200 (.ok data) ∧ pyTruthy data = false) ∨
  (∃ data e, r = .resp 200 (.ok data) ∧ pyGetD data "result" data = .error e) ∨
  (∃ data stats, r = .resp 200 (.ok data) ∧ pyGetD data "result" data = .ok stats ∧
    pyTruthy stats = false)

/-! ### Regex-model lemmas

Supporting lemmas about `matchesAt` / `searchLabeled`, leading to the
first-match characterisation used by claim C1. -/

/-- Only `':'` itself lowercases to `':'` (lowercasing moves `A`-`Z` into
`a`-`z` and fixes everything else). -/
theorem toLower_eq_colon {c : Char} (h : c.toLower = ':') : c = ':' := by
  rw [Char.toLower] at h
  split at h
  · exfalso
    rename_i hrange
    have hvalid : (c.toNat + 32).isValidChar := by
      rcases hrange with ⟨h1, h2⟩
      exact Or.inl (by omega)
    have hv : (Char.ofNat (c.toNat + 32)).toNat = c.toNat + 32 := by
      rw [Char.ofNat, dif_pos hvalid]
      rfl
    have h58 := congrArg Char.toNat h
    rw [hv] at h58
    have : (':' : Char).toNat = 58 := rfl
    rw [this] at h58
    rcases hrange with ⟨h1, h2⟩
    omega
  · exact h

/-- A non-colon character never case-insensitively equals `':'`. -/
theorem lowerEq_colon_false {c : Char} (h : c ≠ ':') : lowerEq ':' c = false := by
  have hc : c.toLower ≠ ':' := fun hl => h (toLower_eq_colon hl)
  have hcolon : (':' : Char).toLower = ':' := rfl
  simp only [lowerEq, hcolon]
  exact beq_eq_false_iff_ne.mpr (fun hh => hc hh.symm)

/-- Case-insensitive matching only depends on the lowercased text. -/
theorem matchesAt_congr_lower (pat : List Char) :
    ∀ s1 s2 : List Char, s1.map Char.toLower = s2.map Char.toLower →
      matchesAt pat s1 = matchesAt pat s2 := by
  induction pat with
  | nil => intro s1 s2 _; rfl
  | cons p ps ih =>
    intro s1 s2 h
    cases s1 with
    | nil =>
      cases s2 with
      | nil => rfl
      | cons c cs => simp at h
    | cons a as =>
      cases s2 with
      | nil => simp at h
      | cons b bs =>
        simp only [List.map_cons, List.cons.injEq] at h
        simp only [matchesAt, lowerEq, h.1, ih as bs h.2]

/-- A pattern of shape `q ++ [':']` cannot match anywhere inside a colon-free
block that is followed by end-of-text or a newline: the pattern's colon has
nowhere to land. -/
theorem not_matchesAt_colonfree (rest : List Char)
    (hrest : rest = [] ∨ ∃ r2, rest = '\x0a' :: r2) :
    ∀ (v : List Char), (∀ c ∈ v, c ≠ ':') →
    ∀ (q : List Char), (∀ x ∈ q, lowerEq x '\x0a' = false) →
      matchesAt (q ++ [':']) (v ++ rest) = false := by
  intro v
  induction v with
  | nil =>
    intro _ q hq
    rcases hrest with h0 | ⟨r2, hr⟩
    · subst h0
      cases q with
      | nil => rfl
      | cons x q2 => rfl
    · subst hr
      cases q with
      | nil => simp [matchesAt, show lowerEq ':' '\x0a' = false from by decide]
      | cons x q2 => simp [matchesAt, hq x (by simp)]
  | cons c v2 ih =>
    intro hv q hq
    cases q with
    | nil =>
      simp [matchesAt, lowerEq_colon_false (hv c (by simp))]
    | cons x q2 =>
      have htail := ih (fun d hd => hv d (List.mem_cons_of_mem _ hd)) q2
        (fun y hy => hq y (List.mem_cons_of_mem _ hy))
      simp only [List.cons_append, matchesAt, List.append_eq, htail, Bool.and_false]

/-- One scanning step of `searchLabeled` when the pattern does not match at
the current position. -/
theorem searchLabeled_cons_not (pat : List Char) (c : Char) (rest : List Char)
    (h : matchesAt pat (c :: rest) = false) :
    searchLabeled pat (c :: rest) = searchLabeled pat rest := by
  simp [searchLabeled, h]

/-- `searchLabeled` skips over a colon-free block (typically a field value)
that is followed by end-of-text or a newline. -/
theorem searchLabeled_skip_value (q : List Char)
    (hq : ∀ x ∈ q, lowerEq x '\x0a' = false) :
    ∀ (v rest : List Char), (∀ c ∈ v, c ≠ ':') →
      (rest = [] ∨ ∃ r2, rest = '\x0a' :: r2) →
      searchLabeled (q ++ [':']) (v ++ rest) = searchLabeled (q ++ [':']) rest := by
  intro v
  induction v with
  | nil => intro rest _ _; rfl
  | cons c v2 ih =>
    intro rest hv hrest
    have hm : matchesAt (q ++ [':']) ((c :: v2) ++ rest) = false :=
      not_matchesAt_colonfree rest hrest (c :: v2) hv q hq
    rw [List.cons_append, searchLabeled_cons_not _ _ _ (by simpa using hm)]
    exact ih rest (fun d hd => hv d (List.mem_cons_of_mem _ hd)) hrest

/-- `searchLabeled` skips a prefix at each of whose positions the pattern
fails to match. -/
theorem searchLabeled_skip_prefix (pat : List Char) :
    ∀ (a b : List Char),
      (∀ i, i < a.length → matchesAt pat (a.drop i ++ b) = false) →
      searchLabeled pat (a ++ b) = searchLabeled pat b := by
  intro a
  induction a with
  | nil => intro b _; rfl
  | cons c a2 ih =>
    intro b h
    have h0 : matchesAt pat (c :: (a2 ++ b)) = false := by
      have := h 0 (by simp)
      simpa using this
    rw [List.cons_append, searchLabeled_cons_not _ _ _ h0]
    exact ih b (fun i hi => by
      have := h (i + 1) (by simpa using Nat.succ_lt_succ hi)
      simpa using this)

/-- Destructuring a list with a known lowercasing, one character at a time. -/
theorem map_toLower_cons {L : List Char} {c : Char} {cs : List Char}
    (h : L.map Char.toLower = c :: cs) :
    ∃ a L2, L = a :: L2 ∧ a.toLower = c ∧ L2.map Char.toLower = cs := by
  cases L with
  | nil => simp at h
  | cons a L2 =>
    simp only [List.map_cons, List.cons.injEq] at h
    exact ⟨a, L2, rfl, h.1, h.2⟩

/-- The concrete case-insensitive character comparisons that come up when
scanning the three labels across each other's lines. -/
theorem lowerEq_facts :
    (lowerEq 'u' 'u' = true) ∧ (lowerEq 's' 's' = true) ∧ (lowerEq 'e' 'e' = true) ∧
    (lowerEq 'r' 'r' = true) ∧ (lowerEq 'n' 'n' = true) ∧ (lowerEq 'a' 'a' = true) ∧
    (lowerEq 'm' 'm' = true) ∧ (lowerEq ':' ':' = true) ∧ (lowerEq 'i' 'i' = true) ∧
    (lowerEq 'd' 'd' = true) ∧ (lowerEq 'o' 'o' = true) ∧ (lowerEq 't' 't' = true) ∧
    (lowerEq 'k' 'k' = true) ∧ (lowerEq ' ' ' ' = true) ∧
    (lowerEq 's' 'u' = false) ∧ (lowerEq 'u' 'i' = false) ∧ (lowerEq 'u' 'd' = false) ∧
    (lowerEq 'u' ':' = false) ∧ (lowerEq 'u' ' ' = false) ∧ (lowerEq 'u' 's' = false) ∧
    (lowerEq 'u' 'e' = false) ∧ (lowerEq 'u' 'o' = false) ∧ (lowerEq 'u' 'n' = false) ∧
    (lowerEq 'u' 't' = false) ∧ (lowerEq 'u' 'k' = false) ∧ (lowerEq 's' 'r' = false) ∧
    (lowerEq 's' 'e' = false) ∧ (lowerEq 's' 'n' = false) ∧ (lowerEq 's' 'a' = false) ∧
    (lowerEq 's' 'm' = false) ∧ (lowerEq 's' ':' = false) ∧ (lowerEq 's' ' ' = false) ∧
    (lowerEq 's' 'i' = false) ∧ (lowerEq 's' 'd' = false) ∧
    (lowerEq 'u' '\x0a' = false) ∧ (lowerEq 's' '\x0a' = false) := by
  decide

/-- A lowercasing preserves length. -/
theorem length_of_map_toLower {L ll : List Char}
    (h : L.map Char.toLower = ll) : L.length = ll.length := by
  have := congrArg List.length h
  simpa using this

/-- `takeWhile` walks through a block all of whose elements satisfy the
predicate. -/
theorem takeWhile_append_of_all {p : Char → Bool} :
    ∀ v rest : List Char, (∀ c ∈ v, p c = true) →
      (v ++ rest).takeWhile p = v ++ rest.takeWhile p := by
  intro v
  induction v with
  | nil => intro rest _; simp
  | cons c v2 ih =>
    intro rest h
    simp only [List.cons_append, List.takeWhile_cons, h c (by simp), if_true,
      eq_self_iff_true, ih rest (fun d hd => h d (List.mem_cons_of_mem _ hd))]

/-- `\s*(\S+)` applied to a single space, a whitespace-free nonempty value,
and then end-of-text or a newline, captures exactly the value. -/
theorem captureAfter_space_value (v rest : List Char) (hv : v ≠ [])
    (hs : ∀ c ∈ v, pyIsSpace c = false)
    (hrest : rest = [] ∨ ∃ r2, rest = '\x0a' :: r2) :
    captureAfter (' ' :: (v ++ rest)) = some v := by
  cases v with
  | nil => exact absurd rfl hv
  | cons c v2 =>
    have hdw : (' ' :: ((c :: v2) ++ rest)).dropWhile pyIsSpace = (c :: v2) ++ rest := by
      simp only [List.dropWhile_cons, show pyIsSpace ' ' = true from by decide, if_true,
        List.cons_append, hs c (by simp), Bool.false_eq_true, if_false]
    have htw : ((c :: v2) ++ rest).takeWhile (fun d => !pyIsSpace d) = c :: v2 := by
      rw [takeWhile_append_of_all (c :: v2) rest (fun d hd => by simp [hs d hd])]
      rcases hrest with h0 | ⟨r2, hr⟩
      · subst h0; simp
      · subst hr
        simp [List.takeWhile_cons, show pyIsSpace '\x0a' = true from by decide]
    rw [captureAfter, hdw, htw]

/-- Scanning for the username label skips a (cased) UUID line. -/
theorem skip_uuid_line_user (L v rest : List Char)
    (hL : L.map Char.toLower = uuidPat)
    (hv : ∀ c ∈ v, c ≠ ':')
    (hrest : rest = [] ∨ ∃ r2, rest = '\x0a' :: r2) :
    searchLabeled userPat (L ++ ' ' :: (v ++ rest)) = searchLabeled userPat rest := by
  have hstep1 : searchLabeled userPat ((L ++ [' ']) ++ (v ++ rest))
      = searchLabeled userPat (v ++ rest) := by
    apply searchLabeled_skip_prefix
    intro i hi
    have hlen : L.length = 5 := length_of_map_toLower hL
    rw [matchesAt_congr_lower userPat _ ((uuidPat ++ [' ']).drop i ++ (v ++ rest))
      (by simp only [List.map_append, List.map_drop, hL,
            show ([' '] : List Char).map Char.toLower = [' '] from by decide,
            show uuidPat.map Char.toLower = uuidPat from by decide])]
    rw [List.length_append, hlen] at hi
    have hi6 : i < 6 := by simpa using hi
    interval_cases i <;>
      simp [uuidPat, userPat, matchesAt, lowerEq_facts]
  have hstep2 : searchLabeled userPat (v ++ rest) = searchLabeled userPat rest := by
    have hq : userPat = ['u', 's', 'e', 'r', 'n', 'a', 'm', 'e'] ++ [':'] := rfl
    rw [hq]
    exact searchLabeled_skip_value _ (by decide) v rest hv hrest
  rw [show L ++ ' ' :: (v ++ rest) = (L ++ [' ']) ++ (v ++ rest) from by simp, hstep1, hstep2]

/-- Scanning for the username label skips a (cased) session-token line. -/
theorem skip_sess_line_user (L v rest : List Char)
    (hL : L.map Char.toLower = sessPat)
    (hv : ∀ c ∈ v, c ≠ ':')
    (hrest : rest = [] ∨ ∃ r2, rest = '\x0a' :: r2) :
    searchLabeled userPat (L ++ ' ' :: (v ++ rest)) = searchLabeled userPat rest := by
  have hstep1 : searchLabeled userPat ((L ++ [' ']) ++ (v ++ rest))
      = searchLabeled userPat (v ++ rest) := by
    apply searchLabeled_skip_prefix
    intro i hi
    have hlen : L.length = 14 := length_of_map_toLower hL
    rw [matchesAt_congr_lower userPat _ ((sessPat ++ [' ']).drop i ++ (v ++ rest))
      (by simp only [List.map_append, List.map_drop, hL,
            show ([' '] : List Char).map Char.toLower = [' '] from by decide,
            show sessPat.map Char.toLower = sessPat from by decide])]
    rw [List.length_append, hlen] at hi
    have hi15 : i < 15 := by simpa using hi
    interval_cases i <;>
      simp [sessPat, userPat, matchesAt, lowerEq_facts]
  have hstep2 : searchLabeled userPat (v ++ rest) = searchLabeled userPat rest := by
    have hq : userPat = ['u', 's', 'e', 'r', 'n', 'a', 'm', 'e'] ++ [':'] := rfl
    rw [hq]
    exact searchLabeled_skip_value _ (by decide) v rest hv hrest
  rw [show L ++ ' ' :: (v ++ rest) = (L ++ [' ']) ++ (v ++ rest) from by simp, hstep1, hstep2]

/-- Scanning for the session-token label skips a (cased) username line. -/
theorem skip_user_line_sess (L v rest : List Char)
    (hL : L.map Char.toLower = userPat)
    (hv : ∀ c ∈ v, c ≠ ':')
    (hrest : rest = [] ∨ ∃ r2, rest = '\x0a' :: r2) :
    searchLabeled sessPat (L ++ ' ' :: (v ++ rest)) = searchLabeled sessPat rest := by
  have hstep1 : searchLabeled sessPat ((L ++ [' ']) ++ (v ++ rest))
      = searchLabeled sessPat (v ++ rest) := by
    apply searchLabeled_skip_prefix
    intro i hi
    have hlen : L.length = 9 := length_of_map_toLower hL
    rw [matchesAt_congr_lower sessPat _ ((userPat ++ [' ']).drop i ++ (v ++ rest))
      (by simp only [List.map_append, List.map_drop, hL,
            show ([' '] : List Char).map Char.toLower = [' '] from by decide,
            show userPat.map Char.toLower = userPat from by decide])]
    rw [List.length_append, hlen] at hi
    have hi10 : i < 10 := by simpa using hi
    interval_cases i <;>
      simp [sessPat, userPat, matchesAt, lowerEq_facts]
  have hstep2 : searchLabeled sessPat (v ++ rest) = searchLabeled sessPat rest := by
    have hq : sessPat
        = ['s', 'e', 's', 's', 'i', 'o', 'n', ' ', 't', 'o', 'k', 'e', 'n'] ++ [':'] := rfl
    rw [hq]
    exact searchLabeled_skip_value _ (by decide) v rest hv hrest
  rw [show L ++ ' ' :: (v ++ rest) = (L ++ [' ']) ++ (v ++ rest) from by simp, hstep1, hstep2]

/-- Scanning for the session-token label skips a (cased) UUID line. -/
theorem skip_uuid_line_sess (L v rest : List Char)
    (hL : L.map Char.toLower = uuidPat)
    (hv : ∀ c ∈ v, c ≠ ':')
    (hrest : rest = [] ∨ ∃ r2, rest = '\x0a' :: r2) :
    searchLabeled sessPat (L ++ ' ' :: (v ++ rest)) = searchLabeled sessPat rest := by
  have hstep1 : searchLabeled sessPat ((L ++ [' ']) ++ (v ++ rest))
      = searchLabeled sessPat (v ++ rest) := by
    apply searchLabeled_skip_prefix
    intro i hi
    have hlen : L.length = 5 := length_of_map_toLower hL
    rw [matchesAt_congr_lower sessPat _ ((uuidPat ++ [' ']).drop i ++ (v ++ rest))
      (by simp only [List.map_append, List.map_drop, hL,
            show ([' '] : List Char).map Char.toLower = [' '] from by decide,
            show uuidPat.map Char.toLower = uuidPat from by decide])]
    rw [List.length_append, hlen] at hi
    have hi6 : i < 6 := by simpa using hi
    interval_cases i <;>
      simp [sessPat, uuidPat, matchesAt, lowerEq_facts]
  have hstep2 : searchLabeled sessPat (v ++ rest) = searchLabeled sessPat rest := by
    have hq : sessPat
        = ['s', 'e', 's', 's', 'i', 'o', 'n', ' ', 't', 'o', 'k', 'e', 'n'] ++ [':'] := rfl
    rw [hq]
    exact searchLabeled_skip_value _ (by decide) v rest hv hrest
  rw [show L ++ ' ' :: (v ++ rest) = (L ++ [' ']) ++ (v ++ rest) from by simp, hstep1, hstep2]

/-- One scanning step of `searchLabeled` when the pattern matches right here:
the captured token is returned. -/
theorem searchLabeled_head_match (pat s : List Char) (hs : s ≠ [])
    (hm : matchesAt pat s = true) (tok : List Char)
    (hcap : captureAfter (s.drop pat.length) = some tok) :
    searchLabeled pat s = some tok := by
  cases s with
  | nil => exact absurd rfl hs
  | cons c t => simp [searchLabeled, hm, hcap]

/-- Scanning for the username label extracts the value of a (cased) username
line standing at the front. -/
theorem extract_user_line (L v rest : List Char)
    (hL : L.map Char.toLower = userPat)
    (hv : v ≠ []) (hs : ∀ c ∈ v, pyIsSpace c = false)
    (hrest : rest = [] ∨ ∃ r2, rest = '\x0a' :: r2) :
    searchLabeled userPat (L ++ ' ' :: (v ++ rest)) = some v := by
  have hlen : L.length = 9 := length_of_map_toLower hL
  apply searchLabeled_head_match
  · simp
  · rw [matchesAt_congr_lower userPat _ (userPat ++ ' ' :: (v ++ rest))
      (by simp only [List.map_append, List.map_cons, hL,
            show userPat.map Char.toLower = userPat from by decide])]
    simp [userPat, matchesAt, lowerEq_facts]
  · have hplen : userPat.length = L.length := by rw [hlen]; rfl
    rw [hplen, List.drop_left]
    exact captureAfter_space_value v rest hv hs hrest

/-- Scanning for the session-token label extracts the value of a (cased)
session-token line standing at the front. -/
theorem extract_sess_line (L v rest : List Char)
    (hL : L.map Char.toLower = sessPat)
    (hv : v ≠ []) (hs : ∀ c ∈ v, pyIsSpace c = false)
    (hrest : rest = [] ∨ ∃ r2, rest = '\x0a' :: r2) :
    searchLabeled sessPat (L ++ ' ' :: (v ++ rest)) = some v := by
  have hlen : L.length = 14 := length_of_map_toLower hL
  apply searchLabeled_head_match
  · simp
  · rw [matchesAt_congr_lower sessPat _ (sessPat ++ ' ' :: (v ++ rest))
      (by simp only [List.map_append, List.map_cons, hL,
            show sessPat.map Char.toLower = sessPat from by decide])]
    simp [sessPat, matchesAt, lowerEq_facts]
  · have hplen : sessPat.length = L.length := by rw [hlen]; rfl
    rw [hplen, List.drop_left]
    exact captureAfter_space_value v rest hv hs hrest

/-- Scanning for the username label steps over a newline. -/
theorem skip_newline_user (t : List Char) :
    searchLabeled userPat ('\x0a' :: t) = searchLabeled userPat t :=
  searchLabeled_cons_not _ _ _ (by simp [userPat, matchesAt, lowerEq_facts])

/-- Scanning for the session-token label steps over a newline. -/
theorem skip_newline_sess (t : List Char) :
    searchLabeled sessPat ('\x0a' :: t) = searchLabeled sessPat t :=
  searchLabeled_cons_not _ _ _ (by simp [sessPat, matchesAt, lowerEq_facts])

/-- C1 (amended). The extractor returns exactly the username and
session-token values from any message body consisting of the three labeled
lines (`Username`, `UUID`, `Session Token`) in any of the six orders and with
arbitrary label casing, provided the field values are nonempty
whitespace-free tokens containing no colon. The identifier/UUID field is not
extracted: `parse_account_data` returns only the username/session pair. -/
theorem c1_parse_extracts_username_and_session
    (Lu Luu Ls : List Char) (u uuid s content : String)
    (hLu : Lu.map Char.toLower = userPat)
    (hLuu : Luu.map Char.toLower = uuidPat)
    (hLs : Ls.map Char.toLower = sessPat)
    (hu1 : u.data ≠ []) (hu2 : ∀ c ∈ u.data, pyIsSpace c = false)
    (hu3 : ∀ c ∈ u.data, c ≠ ':')
    (hid1 : uuid.data ≠ []) (hid2 : ∀ c ∈ uuid.data, pyIsSpace c = false)
    (hid3 : ∀ c ∈ uuid.data, c ≠ ':')
    (hs1 : s.data ≠ []) (hs2 : ∀ c ∈ s.data, pyIsSpace c = false)
    (hs3 : ∀ c ∈ s.data, c ≠ ':')
    (horder :
      content = mkContent (lineOf Lu u) (lineOf Luu uuid) (lineOf Ls s) ∨
      content = mkContent (lineOf Lu u) (lineOf Ls s) (lineOf Luu uuid) ∨
      content = mkContent (lineOf Luu uuid) (lineOf Lu u) (lineOf Ls s) ∨
      content = mkContent (lineOf Luu uuid) (lineOf Ls s) (lineOf Lu u) ∨
      content = mkContent (lineOf Ls s) (lineOf Lu u) (lineOf Luu uuid) ∨
      content = mkContent (lineOf Ls s) (lineOf Luu uuid) (lineOf Lu u)) :
    parse_account_data content = (some u, some s) := by
  rcases horder with h | h | h | h | h | h <;> subst h
  · have hdata : (mkContent (lineOf Lu u) (lineOf Luu uuid) (lineOf Ls s)).data
        = Lu ++ ' ' :: (u.data ++ '\x0a' :: (Luu ++ ' ' :: (uuid.data ++ '\x0a' :: (Ls ++ ' ' :: s.data)))) := by
      simp [mkContent, lineOf, chListStr]
    unfold parse_account_data
    rw [hdata, extract_user_line Lu u.data _ hLu hu1 hu2 (Or.inr ⟨_, rfl⟩),
      skip_user_line_sess Lu u.data _ hLu hu3 (Or.inr ⟨_, rfl⟩), skip_newline_sess,
      skip_uuid_line_sess Luu uuid.data _ hLuu hid3 (Or.inr ⟨_, rfl⟩), skip_newline_sess,
      show searchLabeled sessPat (Ls ++ ' ' :: s.data) = some s.data from by
        simpa using extract_sess_line Ls s.data [] hLs hs1 hs2 (Or.inl rfl)]
    rfl
  · have hdata : (mkContent (lineOf Lu u) (lineOf Ls s) (lineOf Luu uuid)).data
        = Lu ++ ' ' :: (u.data ++ '\x0a' :: (Ls ++ ' ' :: (s.data ++ '\x0a' :: (Luu ++ ' ' :: uuid.data)))) := by
      simp [mkContent, lineOf, chListStr]
    unfold parse_account_data
    rw [hdata, extract_user_line Lu u.data _ hLu hu1 hu2 (Or.inr ⟨_, rfl⟩),
      skip_user_line_sess Lu u.data _ hLu hu3 (Or.inr ⟨_, rfl⟩), skip_newline_sess,
      extract_sess_line Ls s.data _ hLs hs1 hs2 (Or.inr ⟨_, rfl⟩)]
    rfl
  · have hdata : (mkContent (lineOf Luu uuid) (lineOf Lu u) (lineOf Ls s)).data
        = Luu ++ ' ' :: (uuid.data ++ '\x0a' :: (Lu ++ ' ' :: (u.data ++ '\x0a' :: (Ls ++ ' ' :: s.data)))) := by
      simp [mkContent, lineOf, chListStr]
    unfold parse_account_data
    rw [hdata, skip_uuid_line_user Luu uuid.data _ hLuu hid3 (Or.inr ⟨_, rfl⟩), skip_newline_user,
      extract_user_line Lu u.data _ hLu hu1 hu2 (Or.inr ⟨_, rfl⟩),
      skip_uuid_line_sess Luu uuid.data _ hLuu hid3 (Or.inr ⟨_, rfl⟩), skip_newline_sess,
      skip_user_line_sess Lu u.data _ hLu hu3 (Or.inr ⟨_, rfl⟩), skip_newline_sess,
      show searchLabeled sessPat (Ls ++ ' ' :: s.data) = some s.data from by
        simpa using extract_sess_line Ls s.data [] hLs hs1 hs2 (Or.inl rfl)]
    rfl
  · have hdata : (mkContent (lineOf Luu uuid) (lineOf Ls s) (lineOf Lu u)).data
        = Luu ++ ' ' :: (uuid.data ++ '\x0a' :: (Ls ++ ' ' :: (s.data ++ '\x0a' :: (Lu ++ ' ' :: u.data)))) := by
      simp [mkContent, lineOf, chListStr]
    unfold parse_account_data
    rw [hdata, skip_uuid_line_user Luu uuid.data _ hLuu hid3 (Or.inr ⟨_, rfl⟩), skip_newline_user,
      skip_sess_line_user Ls s.data _ hLs hs3 (Or.inr ⟨_, rfl⟩), skip_newline_user,
      show searchLabeled userPat (Lu ++ ' ' :: u.data) = some u.data from by
        simpa using extract_user_line Lu u.data [] hLu hu1 hu2 (Or.inl rfl),
      skip_uuid_line_sess Luu uuid.data _ hLuu hid3 (Or.inr ⟨_, rfl⟩), skip_newline_sess,
      extract_sess_line Ls s.data _ hLs hs1 hs2 (Or.inr ⟨_, rfl⟩)]
    rfl
  · have hdata : (mkContent (lineOf Ls s) (lineOf Lu u) (lineOf Luu uuid)).data
        = Ls ++ ' ' :: (s.data ++ '\x0a' :: (Lu ++ ' ' :: (u.data ++ '\x0a' :: (Luu ++ ' ' :: uuid.data)))) := by
      simp [mkContent, lineOf, chListStr]
    unfold parse_account_data
    rw [hdata, skip_sess_line_user Ls s.data _ hLs hs3 (Or.inr ⟨_, rfl⟩), skip_newline_user,
      extract_user_line Lu u.data _ hLu hu1 hu2 (Or.inr ⟨_, rfl⟩),
      extract_sess_line Ls s.data _ hLs hs1 hs2 (Or.inr ⟨_, rfl⟩)]
    rfl
  · have hdata : (mkContent (lineOf Ls s) (lineOf Luu uuid) (lineOf Lu u)).data
        = Ls ++ ' ' :: (s.data ++ '\x0a' :: (Luu ++ ' ' :: (uuid.data ++ '\x0a' :: (Lu ++ ' ' :: u.data)))) := by
      simp [mkContent, lineOf, chListStr]
    unfold parse_account_data
    rw [hdata, skip_sess_line_user Ls s.data _ hLs hs3 (Or.inr ⟨_, rfl⟩), skip_newline_user,
      skip_uuid_line_user Luu uuid.data _ hLuu hid3 (Or.inr ⟨_, rfl⟩), skip_newline_user,
      show searchLabeled userPat (Lu ++ ' ' :: u.data) = some u.data from by
        simpa using extract_user_line Lu u.data [] hLu hu1 hu2 (Or.inl rfl),
      extract_sess_line Ls s.data _ hLs hs1 hs2 (Or.inr ⟨_, rfl⟩)]
    rfl

/-- C1 counterexample to the claim as stated: on a body containing all three
labeled fields, the extractor returns a pair holding only the username and
the session token; the identifier value `123` appears in neither component,
so extraction does not return "exactly those three values". -/
theorem c1_counterexample :
    parse_account_data "Username: alice\x0aUUID: 123\x0aSession Token: tok"
      = (some "alice", some "tok") ∧
    "alice" ≠ "123" ∧ "tok" ≠ "123" := by
  decide

/-- C1 witness: the amended theorem applied at a concrete scrambled-order,
mixed-case body. -/
theorem c1_witness :
    parse_account_data "sEsSiOn ToKeN: tok9\x0auUiD: 1234\x0aUSERNAME: Alice"
      = (some "Alice", some "tok9") :=
  c1_parse_extracts_username_and_session
    "USERNAME:".data "uUiD:".data "sEsSiOn ToKeN:".data "Alice" "1234" "tok9" _
    (by decide) (by decide) (by decide)
    (by decide) (by decide) (by decide)
    (by decide) (by decide) (by decide)
    (by decide) (by decide) (by decide)
    (Or.inr (Or.inr (Or.inr (Or.inr (Or.inr (by decide))))))

/-- Every `ok` result of `fetch_steps` either carries the validity flag or is
the sentinel triple. -/
theorem fetch_steps_ok_cases (st : Nat) (body : Except PyErr PyVal)
    (res : String × String × Bool) (h : fetch_steps st body = .ok res) :
    res.2.2 = true ∨ res = ("Unknown", "Unknown", false) := by
  unfold fetch_steps at h
  split at h
  · cases body with
    | error e => simp at h
    | ok data =>
      simp only at h
      split at h
      · injection h with h; subst h; right; rfl
      · split at h
        · exact Except.noConfusion h
        · split at h
          · split at h
            · exact Except.noConfusion h
            · split at h
              · exact Except.noConfusion h
              · split at h
                · exact Except.noConfusion h
                · split at h
                  · exact Except.noConfusion h
                  · injection h with h; subst h; left; rfl
          · injection h with h; subst h; right; rfl
  · split at h
    · injection h with h; subst h; right; rfl
    · split at h
      · injection h with h; subst h; right; rfl
      · injection h with h; subst h; right; rfl

/-- The valid-flag direction of `fetch_steps`: an `ok` result with flag
`true` can only come from the full success path. -/
theorem fetch_steps_valid_cases (st : Nat) (body : Except PyErr PyVal)
    (res : String × String × Bool) (h : fetch_steps st body = .ok res)
    (hv : res.2.2 = true) :
    st = 200 ∧ ∃ data stats, body = .ok data ∧ pyTruthy data = true ∧
      pyGetD data "result" data = .ok stats ∧ pyTruthy stats = true := by
  unfold fetch_steps at h
  split at h
  · rename_i h200
    cases body with
    | error e => simp at h
    | ok data =>
      simp only at h
      split at h
      · injection h with h; subst h; simp at hv
      · rename_i hdata
        split at h
        · exact Except.noConfusion h
        · rename_i stats hget
          split at h
          · rename_i hstats
            exact ⟨h200, data, stats, rfl, by simpa using hdata, hget, hstats⟩
          · injection h with h; subst h; simp at hv
  · split at h
    · injection h with h; subst h; simp at hv
    · split at h
      · injection h with h; subst h; simp at hv
      · injection h with h; subst h; simp at hv

/-- Whenever the validity flag is `false`, the whole result is the sentinel
triple. -/
theorem fetch_invalid_unknown (r : ApiResult)
    (h : (fetch_donutsmp_stats r).2.2 = false) :
    fetch_donutsmp_stats r = ("Unknown", "Unknown", false) := by
  cases r with
  | netError => rfl
  | resp st body =>
    unfold fetch_donutsmp_stats at h ⊢
    dsimp only at h ⊢
    cases hst : fetch_steps st body with
    | error e => rfl
    | ok res =>
      rw [hst] at h
      dsimp only at h ⊢
      rcases fetch_steps_ok_cases st body res hst with hv | hs
      · rw [hv] at h; exact absurd h (by simp)
      · exact hs

/-- Whenever the validity flag is `true`, the response was a 200 with a
truthy JSON body in which a truthy stats object was located. -/
theorem fetch_valid_structure (r : ApiResult)
    (h : (fetch_donutsmp_stats r).2.2 = true) :
    ∃ data stats, r = .resp 200 (.ok data) ∧ pyTruthy data = true ∧
      pyGetD data "result" data = .ok stats ∧ pyTruthy stats = true := by
  cases r with
  | netError => simp [fetch_donutsmp_stats] at h
  | resp st body =>
    unfold fetch_donutsmp_stats at h
    dsimp only at h
    cases hst : fetch_steps st body with
    | error e => rw [hst] at h; simp at h
    | ok res =>
      rw [hst] at h
      dsimp only at h
      obtain ⟨h200, data, stats, hbody, hd, hget, hs⟩ :=
        fetch_steps_valid_cases st body res hst h
      exact ⟨data, stats, by rw [h200, hbody], hd, hget, hs⟩

/-- A non-200 status returns the sentinel triple without touching the body. -/
theorem fetch_steps_non200 (st : Nat) (b : Except PyErr PyVal) (h : st ≠ 200) :
    fetch_steps st b = .ok ("Unknown", "Unknown", false) := by
  unfold fetch_steps
  rw [if_neg h]
  split_ifs <;> rfl

/-- A falsy decoded body returns the sentinel triple. -/
theorem fetch_steps_falsy_data (data : PyVal) (h : pyTruthy data = false) :
    fetch_steps 200 (.ok data) = .ok ("Unknown", "Unknown", false) := by
  unfold fetch_steps
  rw [if_pos rfl]
  dsimp only
  rw [if_pos h]

/-- A failing `.get` on the decoded body raises out of the `try` block. -/
theorem fetch_steps_get_error (data : PyVal) (e : PyErr)
    (hd : pyTruthy data = true) (hget : pyGetD data "result" data = .error e) :
    fetch_steps 200 (.ok data) = .error e := by
  unfold fetch_steps
  rw [if_pos rfl]
  dsimp only
  rw [if_neg (by simp [hd]), hget]

/-- A falsy located stats object returns the sentinel triple. -/
theorem fetch_steps_falsy_stats (data stats : PyVal)
    (hd : pyTruthy data = true) (hget : pyGetD data "result" data = .ok stats)
    (hs : pyTruthy stats = false) :
    fetch_steps 200 (.ok data) = .ok ("Unknown", "Unknown", false) := by
  unfold fetch_steps
  rw [if_pos rfl]
  dsimp only
  rw [if_neg (by simp [hd]), hget]
  dsimp only
  rw [if_neg (by simp [hs])]

/-- C3 (amended). Whenever one of the enrichment failure paths is taken
(connection exception, non-200 status, JSON decode failure, falsy decoded
body, `.get` failure on a non-dict body, or falsy located stats object),
both display fields are the sentinel "Unknown" (and the flag is `False`).
An *absent* playtime/money key inside a truthy stats object is not a failure
path: its raw value defaults to `0` and formats as "0h 0m" / "$0". -/
theorem c3_enrichment_failure_unknown (r : ApiResult) (h : enrichmentFailure r) :
    fetch_donutsmp_stats r = ("Unknown", "Unknown", false) := by
  rcases h with rfl | ⟨st, b, rfl, hst⟩ | ⟨e, rfl⟩ | ⟨data, rfl, hd⟩ |
    ⟨data, e, rfl, hget⟩ | ⟨data, stats, rfl, hget, hstats⟩
  · rfl
  · unfold fetch_donutsmp_stats
    dsimp only
    rw [fetch_steps_non200 st b hst]
  · rfl
  · unfold fetch_donutsmp_stats
    dsimp only
    rw [fetch_steps_falsy_data data hd]
  · by_cases hd : pyTruthy data = false
    · unfold fetch_donutsmp_stats
      dsimp only
      rw [fetch_steps_falsy_data data hd]
    · unfold fetch_donutsmp_stats
      dsimp only
      rw [fetch_steps_get_error data e (by simpa using hd) hget]
  · by_cases hd : pyTruthy data = false
    · unfold fetch_donutsmp_stats
      dsimp only
      rw [fetch_steps_falsy_data data hd]
    · unfold fetch_donutsmp_stats
      dsimp only
      rw [fetch_steps_falsy_stats data stats (by simpa using hd) hget hstats]

/-- C3 counterexample to the claim as stated: a 200 response whose stats
object lacks the playtime key yields the display "0h 0m", not "Unknown". -/
theorem c3_counterexample :
    fetch_donutsmp_stats (.resp 200 (.ok (.obj [("result", .obj [("money", .int 5)])])))
      = ("0h 0m", "$5", true) ∧ "0h 0m" ≠ "Unknown" := by
  decide

/-- C3 witness: the amended theorem applied to a concrete 503 response. -/
theorem c3_witness :
    fetch_donutsmp_stats (.resp 503 (.ok (.str "busy"))) = ("Unknown", "Unknown", false) :=
  c3_enrichment_failure_unknown (.resp 503 (.ok (.str "busy")))
    (Or.inr (Or.inl ⟨503, .ok (.str "busy"), rfl, by decide⟩))

/-- C5. A 200 response with body
`\x7b"result": \x7b"playtime": 7265, "money": 1500000\x7d\x7d` enriches to the
formatted pair "2h 1m" and "$1,500,000" with the validity flag set. -/
theorem c5_concrete_stats_response :
    fetch_donutsmp_stats
      (.resp 200 (.ok (.obj [("result",
        .obj [("playtime", .int 7265), ("money", .int 1500000)])])))
      = ("2h 1m", "$1,500,000", true) := by
  decide

/-- C8. A 401 response is an invalid lookup regardless of its body: the body
(decoded value or decode error) is universally quantified and never
inspected. -/
theorem c8_status_401_invalid (body : Except PyErr PyVal) :
    fetch_donutsmp_stats (.resp 401 body) = ("Unknown", "Unknown", false) := rfl

/-- C10. The validity flag is `true` only for a 200 response whose decoded
body is truthy and in which the located stats object (the `result` value or
the flat body) is truthy; whenever the flag is `false`, both display strings
are exactly "Unknown". -/
theorem c10_validity_invariant (r : ApiResult) :
    ((fetch_donutsmp_stats r).2.2 = true →
      ∃ data stats, r = .resp 200 (.ok data) ∧ pyTruthy data = true ∧
        pyGetD data "result" data = .ok stats ∧ pyTruthy stats = true) ∧
    ((fetch_donutsmp_stats r).2.2 = false →
      (fetch_donutsmp_stats r).1 = "Unknown" ∧ (fetch_donutsmp_stats r).2.1 = "Unknown") :=
  ⟨fun h => fetch_valid_structure r h,
   fun h => by rw [fetch_invalid_unknown r h]; exact ⟨rfl, rfl⟩⟩

/-- C10 witness: both directions at concrete inputs — an invalid 401 lookup
shows the sentinel fields, a valid 200 lookup exhibits the located stats
object. -/
theorem c10_witness :
    ((fetch_donutsmp_stats (.resp 401 (.ok .null))).1 = "Unknown" ∧
      (fetch_donutsmp_stats (.resp 401 (.ok .null))).2.1 = "Unknown") ∧
    (∃ data stats, (ApiResult.resp 200 (.ok (.obj [("playtime", .int 60)])) : ApiResult)
        = .resp 200 (.ok data) ∧ pyTruthy data = true ∧
        pyGetD data "result" data = .ok stats ∧ pyTruthy stats = true) :=
  ⟨(c10_validity_invariant (.resp 401 (.ok .null))).2 (by decide),
   (c10_validity_invariant (.resp 200 (.ok (.obj [("playtime", .int 60)])))).1 (by decide)⟩

/-- A successful capture is never the empty token (`\S+` is nonempty). -/
theorem captureAfter_some_ne_nil {x t : List Char} (h : captureAfter x = some t) :
    t ≠ [] := by
  unfold captureAfter at h
  split at h
  · exact Option.noConfusion h
  · injection h with h
    rw [← h]
    simp

/-- A successful search result is never the empty token. -/
theorem searchLabeled_some_ne_nil (pat : List Char) :
    ∀ (s tok : List Char), searchLabeled pat s = some tok → tok ≠ [] := by
  intro s
  induction s with
  | nil => intro tok h; exact Option.noConfusion h
  | cons c rest ih =>
    intro tok h
    unfold searchLabeled at h
    cases hcap : (if matchesAt pat (c :: rest) then
        captureAfter ((c :: rest).drop pat.length) else none) with
    | some t2 =>
      rw [hcap] at h
      dsimp only at h
      injection h with h
      rw [← h]
      have hcap2 : captureAfter ((c :: rest).drop pat.length) = some t2 := by
        rcases Bool.eq_false_or_eq_true (matchesAt pat (c :: rest)) with hm | hm <;>
          rw [hm] at hcap <;> simp_all
      exact captureAfter_some_ne_nil hcap2
    | none =>
      rw [hcap] at h
      dsimp only at h
      exact ih tok h

/-- Both components of a successful extraction are nonempty strings; in
particular the Python truthiness checks in the handler pass. -/
theorem parse_components_ne_empty {content u s : String}
    (h : parse_account_data content = (some u, some s)) : u ≠ "" ∧ s ≠ "" := by
  unfold parse_account_data at h
  have h1 : Option.map chListStr (searchLabeled userPat content.data) = some u := by
    have := congrArg Prod.fst h; simpa using this
  have h2 : Option.map chListStr (searchLabeled sessPat content.data) = some s := by
    have := congrArg Prod.snd h; simpa using this
  constructor
  · rcases Option.map_eq_some'.mp h1 with ⟨l, hl, hlu⟩
    have hne := searchLabeled_some_ne_nil userPat content.data l hl
    intro hu
    apply hne
    have h3 := congrArg String.data (hlu.trans hu)
    simpa [chListStr] using h3
  · rcases Option.map_eq_some'.mp h2 with ⟨l, hl, hls⟩
    have hne := searchLabeled_some_ne_nil sessPat content.data l hl
    intro hs
    apply hne
    have h3 := congrArg String.data (hls.trans hs)
    simpa [chListStr] using h3

/-- C2 (amended). Startup aborts when the bot token, the input channel id,
the output channel id or the API key is absent; an absent listen port does
not abort and defaults to 8080. -/
theorem c2_required_config_abort (env : Env) :
    (env.DISCORD_BOT_TOKEN = none → isStartupError (loadConfig env) = true) ∧
    (env.INPUT_CHANNEL_ID = none → isStartupError (loadConfig env) = true) ∧
    (env.OUTPUT_CHANNEL_ID = none → isStartupError (loadConfig env) = true) ∧
    (env.DONUTSMP_API_KEY = none → isStartupError (loadConfig env) = true) ∧
    (env.PORT = none → ∀ c, loadConfig env = .ok c → c.PORT = 8080) := by
  refine ⟨?_, ?_, ?_, ?_, ?_⟩
  · intro h
    unfold loadConfig
    split
    · rfl
    · split
      · rfl
      · split
        · rfl
        · rw [h]
          simp [optStrTruthy, isStartupError]
  · intro h
    unfold loadConfig
    rw [h]
    simp only [envInt]
    split
    · rfl
    · split
      · rfl
      · split_ifs <;> simp_all [isStartupError]
  · intro h
    unfold loadConfig
    rw [h]
    simp only [envInt]
    split
    · rfl
    · split
      · rfl
      · split_ifs <;> simp_all [isStartupError]
  · intro h
    unfold loadConfig
    split
    · rfl
    · split
      · rfl
      · split
        · rfl
        · rw [h]
          split_ifs <;> simp_all [optStrTruthy, isStartupError]
  · intro h c hok
    unfold loadConfig at hok
    rw [h] at hok
    simp only [envInt] at hok
    split at hok
    · exact Except.noConfusion hok
    · split at hok
      · exact Except.noConfusion hok
      · split_ifs at hok <;> try exact Except.noConfusion hok
        injection hok with hok
        rw [← hok]

/-- C2 counterexample to the claim as stated: with every other variable
present, an absent `PORT` does not abort startup; the port silently defaults
to 8080. -/
theorem c2_counterexample :
    loadConfig ⟨some "t", some "1", some "2", none, some "k"⟩
      = .ok ⟨"t", 1, 2, 8080, "k"⟩ := by
  decide

/-- C2 witness: an absent bot token aborts startup. -/
theorem c2_witness :
    isStartupError (loadConfig ⟨none, some "1", some "2", some "80", some "k"⟩) = true :=
  (c2_required_config_abort ⟨none, some "1", some "2", some "80", some "k"⟩).1 rfl

/-- C4 (amended). For every input whose `float()` conversion raises
(`TypeError` for `None` and containers, `ValueError` for non-numeric
strings) and for every input converting to `nan`, both formatters return
"Unknown" and raise nothing (the error is only logged). Inputs converting
to an infinite float are the exception: there `int()` raises
`OverflowError`, which the formatters' `except (ValueError, TypeError)` does
not catch (see the counterexample; only the stats fetcher's catch-all stops
it). -/
theorem c4_formatters_unknown_on_failure (v : PyVal)
    (h : pyFloat v = .error .typeError ∨ pyFloat v = .error .valueError ∨
      pyFloat v = .ok .nan) :
    format_playtime v = .ok "Unknown" ∧ format_balance v = .ok "Unknown" := by
  cases v with
  | null => exact ⟨rfl, rfl⟩
  | bool b => exfalso; rcases h with h | h | h <;> simp [pyFloat] at h
  | int n => exfalso; rcases h with h | h | h <;> simp [pyFloat] at h
  | float f =>
    rcases h with h | h | h <;> simp [pyFloat] at h
    subst h
    exact ⟨by decide, by decide⟩
  | str s =>
    cases hp : parsePyFloat s with
    | none =>
      constructor <;>
        simp [format_playtime, format_balance, format_playtime_body,
          format_balance_body, pyFloat, hp, catchNumErr]
    | some f =>
      have hf : f = .nan := by
        rcases h with h | h | h <;> simp [pyFloat, hp] at h <;> exact h
      subst hf
      constructor <;>
        simp [format_playtime, format_balance, format_playtime_body,
          format_balance_body, pyFloat, hp, pyIntOfPFloat, catchNumErr]
  | arr xs =>
    constructor <;>
      simp [format_playtime, format_balance, format_playtime_body,
        format_balance_body, pyFloat, catchNumErr]
  | obj kvs =>
    constructor <;>
      simp [format_playtime, format_balance, format_playtime_body,
        format_balance_body, pyFloat, catchNumErr]

/-- C4 counterexample to the claim as stated: the string "inf" converts to a
float but cannot be truncated to an integer; `int()` raises `OverflowError`,
which the formatters do not catch, so they raise instead of returning
"Unknown". -/
theorem c4_counterexample :
    format_playtime (PyVal.str "inf") = .error .overflowError ∧
    format_balance (PyVal.str "inf") = .error .overflowError := by
  decide

/-- C4 witness: a non-numeric string formats to "Unknown" in both
formatters. -/
theorem c4_witness :
    format_playtime (PyVal.str "abc") = .ok "Unknown" ∧
    format_balance (PyVal.str "abc") = .ok "Unknown" :=
  c4_formatters_unknown_on_failure (PyVal.str "abc") (Or.inr (Or.inl (by decide)))

/-- C6. A webhook message in the input channel whose content yields no
username match or no session-token match causes no stats fetch and no sent
message: the handler performs no action at all. -/
theorem c6_missing_label_skips (botUserId inCh outCh : Nat) (outExists : Bool)
    (api : ApiResult) (m : Message)
    (hch : m.channelId = inCh) (hwh : webhookTruthy m.webhookId = true)
    (hparse : (parse_account_data m.content).1 = none ∨
      (parse_account_data m.content).2 = none) :
    on_message botUserId inCh outCh outExists api m = [] := by
  unfold on_message
  by_cases hb : m.authorId = botUserId
  · rw [if_pos hb]
  · rw [if_neg hb, if_pos (⟨hch, hwh⟩ : m.channelId = inCh ∧ webhookTruthy m.webhookId)]
    rcases hp : parse_account_data m.content with ⟨uo, so⟩
    rw [hp] at hparse
    simp only at hparse
    cases uo with
    | none => rfl
    | some u =>
      cases so with
      | none => rfl
      | some s =>
        rcases hparse with h | h <;> exact Option.noConfusion h

/-- C6 witness: a webhook message with no labeled fields triggers nothing. -/
theorem c6_witness :
    on_message 9 1 2 true ApiResult.netError ⟨5, 1, some 7, "no labeled fields here"⟩ = [] :=
  c6_missing_label_skips 9 1 2 true ApiResult.netError
    ⟨5, 1, some 7, "no labeled fields here"⟩ rfl (by decide) (Or.inl (by decide))

/-- C7. A 500 response makes the enrichment result invalid, and the handler
then publishes exactly the short invalid-account embed, with no
`AccountView` attached (no interactive buttons). -/
theorem c7_http500_invalid_no_buttons (botUserId inCh outCh : Nat)
    (m : Message) (body : Except PyErr PyVal) (u s : String)
    (hb : m.authorId ≠ botUserId) (hch : m.channelId = inCh)
    (hwh : webhookTruthy m.webhookId = true)
    (hparse : parse_account_data m.content = (some u, some s)) :
    fetch_donutsmp_stats (.resp 500 body) = ("Unknown", "Unknown", false) ∧
    on_message botUserId inCh outCh true (.resp 500 body) m
      = [BotAction.fetchStats u, BotAction.sendEmbed (invalidEmbed u)] := by
  have hfetch : fetch_donutsmp_stats (.resp 500 body) = ("Unknown", "Unknown", false) := rfl
  refine ⟨hfetch, ?_⟩
  obtain ⟨hu, hs⟩ := parse_components_ne_empty hparse
  unfold on_message
  rw [if_neg hb, if_pos (⟨hch, hwh⟩ : m.channelId = inCh ∧ webhookTruthy m.webhookId),
    hparse]
  dsimp only
  rw [if_neg (show ¬(u = "" ∨ s = "") from by simp [hu, hs])]
  simp [hfetch]

/-- C7 witness: the theorem at a concrete parsed webhook message and a
concrete 500 response. -/
theorem c7_witness :
    fetch_donutsmp_stats (.resp 500 (.ok .null)) = ("Unknown", "Unknown", false) ∧
    on_message 9 1 2 true (.resp 500 (.ok .null))
        ⟨5, 1, some 7, "Username: alice Session Token: tok"⟩
      = [BotAction.fetchStats "alice", BotAction.sendEmbed (invalidEmbed "alice")] :=
  c7_http500_invalid_no_buttons 9 1 2
    ⟨5, 1, some 7, "Username: alice Session Token: tok"⟩ (.ok .null) "alice" "tok"
    (by decide) rfl (by decide) (by decide)

/-- C9. Both liveness routes answer 200 with the fixed nonempty text,
whatever the chat-platform connection state is. -/
theorem c9_health_routes (connected : Bool) :
    webserver_handle connected "/health" = some (200, "Bot is operational") ∧
    webserver_handle connected "/" = some (200, "Bot is operational") ∧
    "Bot is operational" ≠ "" := by
  cases connected <;> exact ⟨by decide, by decide, by decide⟩
